import Mathlib

/-!
Verification of the hroot (hammer) Deployment Transaction Engine.

This file shallowly embeds the core of src/source-code/core/src/main.rs:
the transaction engine that snapshots the current root into a new Btrfs
deployment, mutates it in a chroot, seals it read-only and switches the
current pointer and Btrfs default subvolume to it.

Modelling conventions:
- The filesystem state the engine manipulates (regular files such as the
  lock file and transaction markers, symlinks, Btrfs subvolumes, their ro
  properties, metadata sidecars, and the default-subvolume id) is a record
  of association lists, `FsState`.
- External subprocesses (btrfs, mount, findmnt, chroot commands, mktemp)
  are modelled by an oracle record `Env` that fixes each call's success
  and output; the engine is a pure function of `Env` and `FsState`.
- SHA-256 is modelled as an uninterpreted pure function carried in `Env`
  (the engine only ever compares and stores digests).
- Rust `String::replace` and `sort` are re-implemented faithfully over
  character lists, because the corresponding Lean core functions do not
  reduce in the kernel.
-/

namespace Hammer

/-- Executable equality on Except, for evaluating engine results in
witnesses; core provides none. -/
instance exceptDecEq {ε α : Type} [DecidableEq ε] [DecidableEq α] :
    DecidableEq (Except ε α) := fun x y =>
  match x, y with
  | .ok a, .ok b =>
    if h : a = b then isTrue (by rw [h]) else isFalse (by intro hh; cases hh; exact h rfl)
  | .error a, .error b =>
    if h : a = b then isTrue (by rw [h]) else isFalse (by intro hh; cases hh; exact h rfl)
  | .ok _, .error _ => isFalse (by intro hh; cases hh)
  | .error _, .ok _ => isFalse (by intro hh; cases hh)

/-! ## String primitives (faithful executable models of the Rust ones) -/

/-- Lexicographic comparison of character lists by code point, the order
Rust uses for `String` (byte order; identical on the ASCII names here). -/
def lexLe : List Char → List Char → Bool
  | [], _ => true
  | _ :: _, [] => false
  | a :: as, b :: bs =>
    if a.val.toNat < b.val.toNat then true
    else if b.val.toNat < a.val.toNat then false
    else lexLe as bs

/-- Model of str::starts_with on character lists. -/
def isPfx : List Char → List Char → Bool
  | [], _ => true
  | _ :: _, [] => false
  | a :: as, b :: bs => a = b && isPfx as bs

def strLe (a b : String) : Bool := lexLe a.data b.data

def strGe (a b : String) : Bool := lexLe b.data a.data

/-- Model of str::starts_with. -/
def strStartsWith (s pat : String) : Bool := isPfx pat.data s.data

def strContains (s : String) (c : Char) : Bool := s.data.any (fun a => a = c)

def isWs (c : Char) : Bool := c = ' ' || c = '\n' || c = '\t' || c = '\r'

/-- Model of str::trim. -/
def strTrim (s : String) : String :=
  ⟨((s.data.dropWhile isWs).reverse.dropWhile isWs).reverse⟩

/-- Replace occurrences of a non-overlapping pattern, left to right; the
fuel argument (instantiated with the list length) only serves structural
termination and never runs out. -/
def replaceAux (pat rep : List Char) : Nat → List Char → List Char
  | 0, l => l
  | _ + 1, [] => []
  | fuel + 1, c :: rest =>
    if isPfx pat (c :: rest) then
      rep ++ replaceAux pat rep fuel ((c :: rest).drop pat.length)
    else
      c :: replaceAux pat rep fuel rest

/-- Faithful model of Rust str::replace: every non-overlapping occurrence
of the literal pattern is replaced, scanning left to right.  The pattern is
NOT a regular expression; this is exactly Rust's semantics. -/
def rustReplace (s pat rep : String) : String :=
  if pat.data.isEmpty then s
  else ⟨replaceAux pat.data rep.data s.data.length s.data⟩

/-- Stable insertion of a string into a sorted list. -/
def insertSorted (le : String → String → Bool) (x : String) : List String → List String
  | [] => [x]
  | y :: ys => if le x y then x :: y :: ys else y :: insertSorted le x ys

/-- Stable insertion sort; models Rust Vec::sort / sort_by (same result:
both are stable sorts by the given total order). -/
def sortBy (le : String → String → Bool) : List String → List String
  | [] => []
  | x :: xs => insertSorted le x (sortBy le xs)

/-- Model of str byte-indexed slicing: drop the first n characters. -/
def strDrop (s : String) (n : Nat) : String := ⟨s.data.drop n⟩

def strLength (s : String) : Nat := s.data.length

/-- Last path component, as Rust Path::file_name on the paths used here
(absolute paths with no trailing slash). -/
def fileName (p : String) : String :=
  ⟨((p.data.reverse.takeWhile (fun c => c ≠ '/'))).reverse⟩

/-! ## Constants (verbatim from main.rs) -/

def BTRFS_TOP : String := "/btrfs-root"

def DEPLOYMENTS_DIR : String := "/btrfs-root/deployments"

def CURRENT_SYMLINK : String := "/btrfs-root/current"

def LOCK_FILE : String := "/run/hammer.lock"

def TRANSACTION_MARKER : String := "/btrfs-root/hammer-transaction"

/-! ## Data model -/

/-- Embeds struct Meta: the metadata sidecar .hammer-meta.json. -/
structure Meta where
  created : String
  description : String
  parent : String
  kernel : String
  system_version : String
  status : String
  rollback_reason : Option String
deriving Repr, DecidableEq

/-- The filesystem state the engine reads and mutates.  `metas` maps a
deployment path to its parsed sidecar; a key being present models the
sidecar file existing at `<deployment>/.hammer-meta.json`. -/
structure FsState where
  files : List (String × String)
  links : List (String × String)
  subvols : List String
  roProps : List (String × Bool)
  metas : List (String × Meta)
  defaultSubvol : String
deriving Repr, DecidableEq

def assocFind {α : Type} : List (String × α) → String → Option α
  | [], _ => none
  | (k2, v) :: rest, k => if k2 = k then some v else assocFind rest k

def assocErase {α : Type} : List (String × α) → String → List (String × α)
  | [], _ => []
  | (k2, v) :: rest, k =>
    if k2 = k then assocErase rest k else (k2, v) :: assocErase rest k

def pathExistsFile (s : FsState) (p : String) : Bool := (assocFind s.files p).isSome

def lookupFile (s : FsState) (p : String) : Option String := assocFind s.files p

def addFile (s : FsState) (p c : String) : FsState :=
  { s with files := (p, c) :: assocErase s.files p }

def removeFile (s : FsState) (p : String) : FsState :=
  { s with files := assocErase s.files p }

def readLink (s : FsState) (p : String) : Option String := assocFind s.links p

def isSymlink (s : FsState) (p : String) : Bool := (assocFind s.links p).isSome

def addLink (s : FsState) (p target : String) : FsState :=
  { s with links := (p, target) :: assocErase s.links p }

def removeLink (s : FsState) (p : String) : FsState :=
  { s with links := assocErase s.links p }

def lookupRo (s : FsState) (p : String) : Option Bool := assocFind s.roProps p

def setRoProp (s : FsState) (p : String) (v : Bool) : FsState :=
  { s with roProps := (p, v) :: assocErase s.roProps p }

def lookupMeta (s : FsState) (d : String) : Option Meta := assocFind s.metas d

def setMeta (s : FsState) (d : String) (m : Meta) : FsState :=
  { s with metas := (d, m) :: assocErase s.metas d }

def memStr : List String → String → Bool
  | [], _ => false
  | x :: xs, p => if x = p then true else memStr xs p

def subvolExists (s : FsState) (p : String) : Bool := memStr s.subvols p

/-! ## Environment: outcomes of external subprocess invocations -/

/-- Oracle fixing the result of every external command the engine runs,
plus pure models of time (timestamp/now) and SHA-256. -/
structure Env where
  fsShowOk : Bool
  mountpointOk : Bool
  topMountOk : Bool
  findmntOk : Bool
  findmntOut : String
  timestamp : String
  now : String
  snapshotOk : Bool
  propGetOk : Bool
  subvolNameOk : Bool
  subvolName : String
  mktempOk : Bool
  tempDir : String
  mountChrootOk : Bool
  bindOk : Bool
  dpkgStatusSuccess : Bool
  chrootOk : Bool
  packagesList : String
  unameOk : Bool
  kernel : String
  grubOk : Bool
  umountOk : Bool
  propSetOk : Bool
  subvolIdOk : Bool
  subvolId : String → String
  setDefaultOk : Bool
  deleteOk : String → Bool
  sha256hex : String → String

/-! ## Leaf operations of main.rs -/

/-- Embeds acquire_lock: fails iff the lock file exists, else creates it. -/
def acquire_lock (s : FsState) : Except String FsState :=
  if pathExistsFile s LOCK_FILE then
    .error "Hammer operation in progress (lock file exists)."
  else
    .ok (addFile s LOCK_FILE "")

/-- Embeds release_lock: best-effort removal of the lock file. -/
def release_lock (s : FsState) : FsState := removeFile s LOCK_FILE

/-- Embeds get_root_device's post-processing of the findmnt output:
stdout.trim().replace(r"\[.*\]", "").  Rust String::replace treats the
pattern as a LITERAL string, exactly as rustReplace does. -/
def get_root_device_of (stdout : String) : String :=
  rustReplace (strTrim stdout) "\\[.*\\]" ""

/-- Embeds get_root_device: findmnt -no SOURCE / then the literal replace. -/
def get_root_device (env : Env) : Except String String :=
  if !env.findmntOk then .error "Failed to find root device: "
  else .ok (get_root_device_of env.findmntOut)

/-- Embeds ensure_top_mounted: a no-op when mountpoint -q succeeds, else
mounts the detected root device with -o subvol=/ (no tracked state). -/
def ensure_top_mounted (env : Env) : Except String Unit :=
  if env.mountpointOk then .ok ()
  else
    match get_root_device env with
    | .error e => .error e
    | .ok _ =>
      if !env.topMountOk then .error "Failed to mount btrfs top: "
      else .ok ()

/-- Embeds validate_system: btrfs filesystem show /, the current symlink
must exist, and btrfs property get must report ro=true on its target. -/
def validate_system (env : Env) (s : FsState) : Except String Unit :=
  if !env.fsShowOk then .error "Root filesystem is not BTRFS: "
  else if !isSymlink s CURRENT_SYMLINK then
    .error "Current deployment symlink missing. System may not be initialized. Run 'sudo hammer init' to initialize."
  else
    match readLink s CURRENT_SYMLINK with
    | none => .error "read_link failed"
    | some current =>
      if !env.propGetOk then .error "Failed to get property: "
      else if (match lookupRo s current with
               | some true => "ro=true"
               | some false => "ro=false"
               | none => "") ≠ "ro=true" then
        .error "Current deployment is not read-only."
      else .ok ()

/-- Embeds create_transaction_marker: File::create at the path
format!("{}/hammer-transaction", deployment) - a path INSIDE the
deployment, not the TRANSACTION_MARKER constant - with empty content. -/
def create_transaction_marker (s : FsState) (deployment : String) : FsState :=
  addFile s (deployment ++ "/hammer-transaction") ""

/-- Embeds remove_transaction_marker: best-effort removal of the file at
the fixed path TRANSACTION_MARKER. -/
def remove_transaction_marker (s : FsState) : FsState :=
  removeFile s TRANSACTION_MARKER

/-- Embeds update_meta: when the sidecar does not exist the function
returns Ok without writing anything; otherwise the status and (when given)
rollback_reason fields are overwritten in place. -/
def update_meta (s : FsState) (deployment : String)
    (status : Option String) (rollback_reason : Option String) :
    Except String FsState :=
  match lookupMeta s deployment with
  | none => .ok s
  | some m =>
    let m1 := match status with
      | some st => { m with status := st }
      | none => m
    let m2 := match rollback_reason with
      | some r => { m1 with rollback_reason := some r }
      | none => m1
    .ok (setMeta s deployment m2)

/-- Embeds set_status_broken. -/
def set_status_broken (s : FsState) (deployment : String) : Except String FsState :=
  update_meta s deployment (some "broken") none

/-- Embeds write_meta: creates/overwrites the sidecar of a deployment. -/
def write_meta (s : FsState) (deployment description parent kernel system_version status : String)
    (env : Env) : FsState :=
  setMeta s deployment
    { created := env.now, description := description, parent := parent,
      kernel := kernel, system_version := system_version, status := status,
      rollback_reason := none }

/-- Embeds compute_system_version: read <deployment>/tmp/packages.list and
return the hex SHA-256 of its contents (SHA-256 via the Env oracle). -/
def compute_system_version (env : Env) (s : FsState) (deployment : String) :
    Except String String :=
  match lookupFile s (deployment ++ "/tmp/packages.list") with
  | none => .error "No such file or directory"
  | some contents => .ok (env.sha256hex contents)

/-! ## Btrfs subvolume operations -/

/-- Nested subvolumes living inside a subvolume, as the engine discovers
them through btrfs subvolume list (paths strictly below the subvolume). -/
def nestedOf (s : FsState) (d : String) : List String :=
  s.subvols.filter (fun p => strStartsWith p (d ++ "/"))

/-- Embeds snapshot_recursive: snapshot source to dest (with -r when not
writable), then re-snapshot each nested subvolume into the same relative
location; nested snapshots inherit the writable flag.  A failure of any of
the underlying btrfs invocations is modelled by the single snapshotOk
oracle (the partially created deployment left behind by a mid-way failure
is not modelled; no property proved here inspects it). -/
def snapshot_recursive (env : Env) (s : FsState) (source dest : String)
    (writable : Bool) : Except String FsState :=
  if !env.snapshotOk then .error "Failed to create deployment: "
  else
    let newSubs := dest :: (nestedOf s source).map (fun p => dest ++ strDrop p (strLength source))
    .ok { s with
          subvols := newSubs ++ s.subvols,
          roProps := newSubs.map (fun p => (p, !writable)) ++ s.roProps }

/-- Embeds set_subvolume_readonly: btrfs property set -ts <path> ro. -/
def set_subvolume_readonly (env : Env) (s : FsState) (deployment : String)
    (ro : Bool) : Except String FsState :=
  if !env.propSetOk then .error "Failed to set readonly: "
  else .ok (setRoProp s deployment ro)

/-- Embeds set_readonly_recursive: property set on the top subvolume, then
on every subvolume listed inside it. -/
def set_readonly_recursive (env : Env) (s : FsState) (deployment : String)
    (ro : Bool) : Except String FsState :=
  match set_subvolume_readonly env s deployment ro with
  | .error e => .error e
  | .ok s1 =>
    .ok ((nestedOf s1 deployment).foldl (fun acc p => setRoProp acc p ro) s1)

/-- Embeds create_deployment: read the current symlink, snapshot it to
deployments/hammer-<timestamp>, and when writable clear the ro property
recursively. -/
def create_deployment (env : Env) (s : FsState) (writable : Bool) :
    Except String (String × FsState) :=
  match readLink s CURRENT_SYMLINK with
  | none => .error "No such file or directory"
  | some current =>
    let new_deployment := DEPLOYMENTS_DIR ++ "/hammer-" ++ env.timestamp
    match snapshot_recursive env s current new_deployment writable with
    | .error e => .error e
    | .ok s1 =>
      if writable then
        match set_readonly_recursive env s1 new_deployment false with
        | .error e => .error e
        | .ok s2 => .ok (new_deployment, s2)
      else .ok (new_deployment, s1)

/-- Embeds get_subvol_id: parse btrfs subvolume show output. -/
def get_subvol_id (env : Env) (deployment : String) : Except String String :=
  if !env.subvolIdOk then .error "Failed to get subvol id: "
  else .ok (env.subvolId deployment)

/-- Rust Path::exists follows symlinks: on the current-symlink path it
holds when the link is present and its target subvolume exists. -/
def pathExistsFollowingLink (s : FsState) (p : String) : Bool :=
  match readLink s p with
  | some t => subvolExists s t
  | none => pathExistsFile s p

/-- Embeds switch_to_deployment_inner: btrfs subvolume set-default, then
remove_file on the current symlink when Path::exists (which follows the
link), then symlink the deployment.  Returns the partially mutated state
on failure, exactly as the Rust ? operator leaves it. -/
def switch_to_deployment_inner (env : Env) (s : FsState) (deployment : String) :
    Except String Unit × FsState :=
  match get_subvol_id env deployment with
  | .error e => (.error e, s)
  | .ok id =>
    if !env.setDefaultOk then (.error "Failed to set default subvolume: ", s)
    else
      let s1 := { s with defaultSubvol := id }
      if pathExistsFollowingLink s1 CURRENT_SYMLINK then
        (.ok (), addLink (removeLink s1 CURRENT_SYMLINK) CURRENT_SYMLINK deployment)
      else if isSymlink s1 CURRENT_SYMLINK then
        (.error "File exists (os error 17)", s1)
      else
        (.ok (), addLink s1 CURRENT_SYMLINK deployment)

/-- Embeds get_deployments: the direct children of the deployments
directory whose name starts with hammer- (full paths; read_dir order,
i.e. the order the model stores them in). -/
def get_deployments (s : FsState) : List String :=
  s.subvols.filter (fun p =>
    strStartsWith p (DEPLOYMENTS_DIR ++ "/") &&
    !strContains (strDrop p (strLength DEPLOYMENTS_DIR + 1)) '/' &&
    strStartsWith (strDrop p (strLength DEPLOYMENTS_DIR + 1)) "hammer-")

/-- Embeds get_kernel_version: uname -r inside the chroot. -/
def get_kernel_version (env : Env) : Except String String :=
  if !env.unameOk then .error "Failed to get kernel version: "
  else .ok env.kernel

/-! ## The transaction controller (atomic_install / atomic_remove /
atomic_refresh share this skeleton; in main.rs the three bodies are
line-for-line identical apart from the dpkg -s precheck, the chroot
package command, and the metadata description) -/

/-- Verb-specific dpkg -s precheck: install errors when the package is
already present, remove errors when it is absent, refresh has none. -/
inductive Precheck where
  | errIfInstalled
  | errIfNotInstalled
  | noCheck
deriving Repr, DecidableEq

def runPrecheck : Precheck → Env → Except String Unit
  | .errIfInstalled, env =>
      if env.dpkgStatusSuccess then .error "Already installed: " else .ok ()
  | .errIfNotInstalled, env =>
      if !env.dpkgStatusSuccess then .error "Not installed: " else .ok ()
  | .noCheck, _ => .ok ()

/-- Result of the inner closure of a mutating verb, together with the
captured new_deployment local that the outer function consults and a flag
recording whether execution reached the final switch (step 14). -/
structure TxInner where
  result : Except String Unit
  state : FsState
  new_deployment : Option String
  reachedSwitch : Bool

/-- Embeds the inner closure shared by atomic_install, atomic_remove and
atomic_refresh, with every step in source order: acquire_lock,
validate_system, ensure_top_mounted, create_deployment(writable),
create_transaction_marker, read_link of current, get_root_device,
get_subvol_name, create_temp_dir, mount subvol, bind mounts, the dpkg -s
precheck, the chroot package command (which materializes
/tmp/packages.list in the new tree), get_kernel_version, sanity_check
(a no-op in the source), compute_system_version, write_meta(ready),
update_bootloader_entries (a no-op in the source), update-grub, unbind,
umount, set_subvolume_readonly(true) - the seal, NOT recursive in the
source - then switch_to_deployment_inner and remove_transaction_marker. -/
def tx_inner (check : Precheck) (descr : String) (env : Env) (s0 : FsState) : TxInner :=
  match acquire_lock s0 with
  | .error e => ⟨.error e, s0, none, false⟩
  | .ok s1 =>
  match validate_system env s1 with
  | .error e => ⟨.error e, s1, none, false⟩
  | .ok _ =>
  match ensure_top_mounted env with
  | .error e => ⟨.error e, s1, none, false⟩
  | .ok _ =>
  match create_deployment env s1 true with
  | .error e => ⟨.error e, s1, none, false⟩
  | .ok (nd, s2) =>
  let s3 := create_transaction_marker s2 nd
  match readLink s3 CURRENT_SYMLINK with
  | none => ⟨.error "No such file or directory", s3, some nd, false⟩
  | some current =>
  let parentName := fileName current
  match get_root_device env with
  | .error e => ⟨.error e, s3, some nd, false⟩
  | .ok _device =>
  if !env.subvolNameOk then ⟨.error "Failed to get subvol name: ", s3, some nd, false⟩ else
  if !env.mktempOk then ⟨.error "Failed to create temp dir: ", s3, some nd, false⟩ else
  if !env.mountChrootOk then ⟨.error "Failed to mount temp_chroot: ", s3, some nd, false⟩ else
  if !env.bindOk then ⟨.error "Failed to bind mount: ", s3, some nd, false⟩ else
  match runPrecheck check env with
  | .error e => ⟨.error e, s3, some nd, false⟩
  | .ok _ =>
  if !env.chrootOk then ⟨.error "Failed in chroot: ", s3, some nd, false⟩ else
  let s4 := addFile s3 (nd ++ "/tmp/packages.list") env.packagesList
  match get_kernel_version env with
  | .error e => ⟨.error e, s4, some nd, false⟩
  | .ok kernel =>
  match compute_system_version env s4 nd with
  | .error e => ⟨.error e, s4, some nd, false⟩
  | .ok system_version =>
  let s5 := write_meta s4 nd descr parentName kernel system_version "ready" env
  if !env.grubOk then ⟨.error "Failed to update grub in chroot: ", s5, some nd, false⟩ else
  if !env.umountOk then ⟨.error "Failed to umount temp_chroot: ", s5, some nd, false⟩ else
  match set_subvolume_readonly env s5 nd true with
  | .error e => ⟨.error e, s5, some nd, false⟩
  | .ok s6 =>
  match switch_to_deployment_inner env s6 nd with
  | (.error e, s7) => ⟨.error e, s7, some nd, true⟩
  | (.ok _, s7) => ⟨.ok (), remove_transaction_marker s7, some nd, true⟩

/-- Embeds the outer body shared by the three mutating verbs: run the
closure; on error mark the new deployment broken (best effort); release
the bind mounts and temp dir (no tracked state); then release_lock
UNCONDITIONALLY - even when acquire_lock itself was the failing step. -/
def atomic_transaction (check : Precheck) (descr : String) (env : Env)
    (s0 : FsState) : Except String Unit × FsState :=
  let t := tx_inner check descr env s0
  let s :=
    match t.result, t.new_deployment with
    | .error _, some nd =>
      match set_status_broken t.state nd with
      | .ok s2 => s2
      | .error _ => t.state
    | _, _ => t.state
  (t.result, release_lock s)

/-- Embeds atomic_install. -/
def atomic_install (package : String) (env : Env) (s0 : FsState) :
    Except String Unit × FsState :=
  atomic_transaction .errIfInstalled ("install " ++ package) env s0

/-- Embeds atomic_remove. -/
def atomic_remove (package : String) (env : Env) (s0 : FsState) :
    Except String Unit × FsState :=
  atomic_transaction .errIfNotInstalled ("remove " ++ package) env s0

/-- Embeds atomic_refresh. -/
def atomic_refresh (env : Env) (s0 : FsState) : Except String Unit × FsState :=
  atomic_transaction .noCheck "refresh" env s0

/-! ## clean_up and rollback -/

def eraseStr : List String → String → List String
  | [], _ => []
  | p :: rest, d => if p = d then eraseStr rest d else p :: eraseStr rest d

/-- Embeds the deletion loop of clean_up: btrfs subvolume delete on each
candidate; a failure is only printed and the loop continues. -/
def delete_deployments (env : Env) (s : FsState) : List String → FsState
  | [] => s
  | d :: ds =>
    let s1 := if env.deleteOk d then { s with subvols := eraseStr s.subvols d } else s
    delete_deployments env s1 ds

/-- Embeds clean_up: lock, validate, sort the deployments ascending and
delete all but the last five.  On an acquire_lock or validate failure the
? operator returns before release_lock is reached, so the lock file is
left as it was. -/
def clean_up (env : Env) (s0 : FsState) : Except String Unit × FsState :=
  match acquire_lock s0 with
  | .error e => (.error e, s0)
  | .ok s1 =>
  match validate_system env s1 with
  | .error e => (.error e, s1)
  | .ok _ =>
    let deployments := sortBy strLe (get_deployments s1)
    let s2 :=
      if deployments.length > 5 then
        delete_deployments env s1 (deployments.take (deployments.length - 5))
      else s1
    (.ok (), release_lock s2)

/-- Embeds rollback: lock, validate, sort the deployments descending by
name, require at least n+1 of them, switch to the one at index n, and set
the OLD current deployment's metadata status to rollback with reason
"user requested".  The target's metadata is not touched. -/
def rollback (n : Nat) (env : Env) (s0 : FsState) : Except String Unit × FsState :=
  match acquire_lock s0 with
  | .error e => (.error e, s0)
  | .ok s1 =>
  match validate_system env s1 with
  | .error e => (.error e, s1)
  | .ok _ =>
    let deployments := sortBy strGe (get_deployments s1)
    if deployments.length < n + 1 then
      (.error "Not enough deployments for rollback.", s1)
    else
      let target := deployments.getD n ""
      match readLink s1 CURRENT_SYMLINK with
      | none => (.error "No such file or directory", s1)
      | some old_current =>
        match switch_to_deployment_inner env s1 target with
        | (.error e, s2) => (.error e, s2)
        | (.ok _, s2) =>
          match update_meta s2 old_current (some "rollback") (some "user requested") with
          | .error e => (.error e, s2)
          | .ok s3 => (.ok (), release_lock s3)

/-- Embeds switch_deployment: lock, validate, resolve the target (named,
or the second newest when omitted), require it to exist, switch to it and
mark the old current deployment previous / manual. -/
def switch_deployment (deployment : Option String) (env : Env) (s0 : FsState) :
    Except String Unit × FsState :=
  match acquire_lock s0 with
  | .error e => (.error e, s0)
  | .ok s1 =>
  match validate_system env s1 with
  | .error e => (.error e, s1)
  | .ok _ =>
    let targetRes : Except String String :=
      match deployment with
      | some d => .ok (DEPLOYMENTS_DIR ++ "/" ++ d)
      | none =>
        let deps := sortBy strLe (get_deployments s1)
        if deps.length < 2 then .error "Not enough deployments for rollback."
        else .ok (deps.getD (deps.length - 2) "")
    match targetRes with
    | .error e => (.error e, s1)
    | .ok target =>
      if !(subvolExists s1 target) then (.error "Deployment does not exist.", s1)
      else
        match readLink s1 CURRENT_SYMLINK with
        | none => (.error "No such file or directory", s1)
        | some old_current =>
          match switch_to_deployment_inner env s1 target with
          | (.error e, s2) => (.error e, s2)
          | (.ok _, s2) =>
            match update_meta s2 old_current (some "previous") (some "manual") with
            | .error e => (.error e, s2)
            | .ok s3 => (.ok (), release_lock s3)

/-! ## Concrete fixtures (used by witnesses and counterexamples) -/

/-- The running deployment in the concrete scenarios. -/
def curDep : String := "/btrfs-root/deployments/hammer-20240101000000"

/-- The deployment a transaction started at timestamp 20240102000000
creates. -/
def newDep : String := DEPLOYMENTS_DIR ++ "/hammer-20240102000000"

def metaInitial : Meta :=
  { created := "2024-01-01T00:00:00+00:00", description := "initial",
    parent := "none", kernel := "6.1.0-hackeros", system_version := "deadbeef",
    status := "current", rollback_reason := none }

/-- A healthy initialized system: one read-only deployment, current symlink
pointing at it, default subvolume id 256, no lock, no marker. -/
def baseState : FsState :=
  { files := [], links := [(CURRENT_SYMLINK, curDep)], subvols := [curDep],
    roProps := [(curDep, true)], metas := [(curDep, metaInitial)],
    defaultSubvol := "256" }

/-- An environment in which every external command succeeds. -/
def envAllOk : Env :=
  { fsShowOk := true, mountpointOk := true, topMountOk := true,
    findmntOk := true, findmntOut := "/dev/sda2\n",
    timestamp := "20240102000000", now := "2024-01-02T00:00:00+00:00",
    snapshotOk := true, propGetOk := true, subvolNameOk := true,
    subvolName := "deployments/hammer-20240102000000", mktempOk := true,
    tempDir := "/tmp/hammer.h3Xk2a", mountChrootOk := true, bindOk := true,
    dpkgStatusSuccess := false, chrootOk := true, packagesList := "ii htop 3.2.2",
    unameOk := true, kernel := "6.1.0-hackeros", grubOk := true, umountOk := true,
    propSetOk := true, subvolIdOk := true, subvolId := fun _ => "257",
    setDefaultOk := true, deleteOk := fun _ => true,
    sha256hex := fun c => "sha256:" ++ c }

/-- Same, but the chroot package command fails (step 7 of the envelope). -/
def envChrootFail : Env := { envAllOk with chrootOk := false }

/-- baseState with the in-flight lock file and a stale transaction marker
naming a crashed deployment, as left behind by a killed process. -/
def crashedDep : String := "/btrfs-root/deployments/hammer-20231231000000"

def crashedState : FsState :=
  { baseState with
    files := [(LOCK_FILE, ""), (TRANSACTION_MARKER, crashedDep)],
    subvols := [curDep, crashedDep],
    roProps := [(curDep, true), (crashedDep, false)] }

/-- baseState whose current deployment contains a nested subvolume. -/
def nestedState : FsState :=
  { baseState with
    subvols := [curDep, curDep ++ "/home"],
    roProps := [(curDep, true), (curDep ++ "/home", true)] }

/-- baseState where the current sidecar's system_version already equals
the fingerprint the next refresh will compute. -/
def matchedFpState : FsState :=
  { baseState with
    metas := [(curDep, { metaInitial with system_version := "sha256:ii htop 3.2.2" })] }

/-- baseState with only a pre-existing lock file (a concurrent
transaction's). -/
def lockedState : FsState := { baseState with files := [(LOCK_FILE, "")] }

def gcDep (i : String) : String := DEPLOYMENTS_DIR ++ "/hammer-2024010" ++ i

/-- Eight deployments; the current symlink points at the OLDEST one (the
system was rolled back), default id 256. -/
def gcState : FsState :=
  { files := [], links := [(CURRENT_SYMLINK, gcDep "1")],
    subvols := [gcDep "1", gcDep "2", gcDep "3", gcDep "4", gcDep "5",
                gcDep "6", gcDep "7", gcDep "8"],
    roProps := [(gcDep "1", true)], metas := [], defaultSubvol := "256" }

def metaA : Meta := { metaInitial with status := "previous", system_version := "va" }

def metaB : Meta := { metaInitial with status := "ready", system_version := "vb" }

def metaC : Meta := { metaInitial with status := "current", system_version := "vc" }

/-- Three deployments A < B < C by name, C current, all read-only. -/
def rbState : FsState :=
  { files := [],
    links := [(CURRENT_SYMLINK, gcDep "3")],
    subvols := [gcDep "1", gcDep "2", gcDep "3"],
    roProps := [(gcDep "1", true), (gcDep "2", true), (gcDep "3", true)],
    metas := [(gcDep "1", metaA), (gcDep "2", metaB), (gcDep "3", metaC)],
    defaultSubvol := "256" }

/-- All external commands a transaction runs succeed. -/
abbrev EnvSucceeds (env : Env) : Prop :=
  env.fsShowOk = true ∧ env.mountpointOk = true ∧ env.findmntOk = true ∧
  env.snapshotOk = true ∧ env.propGetOk = true ∧ env.propSetOk = true ∧
  env.subvolNameOk = true ∧ env.mktempOk = true ∧ env.mountChrootOk = true ∧
  env.bindOk = true ∧ env.chrootOk = true ∧ env.unameOk = true ∧
  env.grubOk = true ∧ env.umountOk = true ∧ env.subvolIdOk = true ∧
  env.setDefaultOk = true

/-- The preconditions a mutating verb checks: no lock, a current symlink
resolving to an existing read-only deployment. -/
abbrev StateHealthy (s : FsState) (c : String) : Prop :=
  pathExistsFile s LOCK_FILE = false ∧ readLink s CURRENT_SYMLINK = some c ∧
  lookupRo s c = some true ∧ subvolExists s c = true

/-! ## Lemma library -/

theorem assocFind_assocErase_self {α : Type} (l : List (String × α)) (k : String) :
    assocFind (assocErase l k) k = none := by
  induction l with
  | nil => rfl
  | cons p rest ih =>
    obtain ⟨k2, v⟩ := p
    by_cases hk : k2 = k
    · simp [assocErase, hk, ih]
    · simp [assocErase, assocFind, hk, ih]

theorem assocFind_assocErase_ne {α : Type} (l : List (String × α)) (k q : String)
    (h : q ≠ k) : assocFind (assocErase l k) q = assocFind l q := by
  induction l with
  | nil => rfl
  | cons p rest ih =>
    obtain ⟨k2, v⟩ := p
    by_cases hk : k2 = k
    · subst hk
      simp [assocErase, assocFind, Ne.symm h, ih]
    · simp [assocErase, assocFind, hk, ih]

@[simp] theorem assocFind_cons_self {α : Type} (l : List (String × α)) (k : String) (v : α) :
    assocFind ((k, v) :: l) k = some v := by
  simp [assocFind]

theorem assocFind_cons_ne {α : Type} (l : List (String × α)) (k2 k : String) (v : α)
    (h : k2 ≠ k) : assocFind ((k2, v) :: l) k = assocFind l k := by
  simp [assocFind, h]

@[simp] theorem memStr_append (a b : List String) (p : String) :
    memStr (a ++ b) p = (memStr a p || memStr b p) := by
  induction a with
  | nil => simp [memStr]
  | cons x xs ih =>
    by_cases hx : x = p <;> simp [memStr, hx, ih]

theorem memStr_iff_mem (l : List String) (p : String) : memStr l p = true ↔ p ∈ l := by
  induction l with
  | nil => simp [memStr]
  | cons x xs ih =>
    by_cases hx : x = p <;> simp [memStr, hx, ih]
    exact fun h => (hx h.symm).elim

@[simp] theorem addFile_files (s : FsState) (p c : String) :
    (addFile s p c).files = (p, c) :: assocErase s.files p := rfl

@[simp] theorem removeFile_files (s : FsState) (p : String) :
    (removeFile s p).files = assocErase s.files p := rfl

@[simp] theorem addLink_links (s : FsState) (p t : String) :
    (addLink s p t).links = (p, t) :: assocErase s.links p := rfl

@[simp] theorem removeLink_links (s : FsState) (p : String) :
    (removeLink s p).links = assocErase s.links p := rfl

@[simp] theorem setRoProp_roProps (s : FsState) (p : String) (v : Bool) :
    (setRoProp s p v).roProps = (p, v) :: assocErase s.roProps p := rfl

@[simp] theorem setMeta_metas (s : FsState) (d : String) (m : Meta) :
    (setMeta s d m).metas = (d, m) :: assocErase s.metas d := rfl

theorem strData_append (a b : String) : (a ++ b).data = a.data ++ b.data := rfl

theorem isPfx_length (a b : List Char) (h : isPfx a b = true) : a.length ≤ b.length := by
  induction a generalizing b with
  | nil => simp
  | cons x xs ih =>
    cases b with
    | nil => simp [isPfx] at h
    | cons y ys =>
      simp only [isPfx, Bool.and_eq_true] at h
      simpa using ih ys h.2

theorem ne_of_strStartsWith_slash (p d : String)
    (h : strStartsWith p (d ++ "/") = true) : p ≠ d := by
  intro hEq
  subst hEq
  unfold strStartsWith at h
  have := isPfx_length _ _ h
  rw [strData_append] at this
  simp at this

theorem lookupRo_setRoProp_ne (s : FsState) (q p : String) (v : Bool) (h : p ≠ q) :
    lookupRo (setRoProp s q v) p = lookupRo s p := by
  unfold lookupRo
  rw [setRoProp_roProps, assocFind_cons_ne _ _ _ _ (Ne.symm h),
    assocFind_assocErase_ne _ _ _ h]

theorem foldl_setRoProp_lookup_not_mem (l : List String) (s : FsState) (v : Bool)
    (p : String) (h : p ∉ l) :
    lookupRo (l.foldl (fun acc q => setRoProp acc q v) s) p = lookupRo s p := by
  induction l generalizing s with
  | nil => rfl
  | cons x xs ih =>
    rw [List.foldl_cons, ih _ (fun hx => h (List.mem_cons_of_mem _ hx)),
      lookupRo_setRoProp_ne _ _ _ _ (fun hx => h (by rw [hx]; exact List.mem_cons_self _ _))]

theorem foldl_setRoProp_lookup_mem (l : List String) (s : FsState) (v : Bool)
    (p : String) (h : p ∈ l) :
    lookupRo (l.foldl (fun acc q => setRoProp acc q v) s) p = some v := by
  induction l generalizing s with
  | nil => cases h
  | cons x xs ih =>
    rw [List.foldl_cons]
    by_cases hx : p ∈ xs
    · exact ih _ hx
    · have hpx : p = x := by
        rcases List.mem_cons.mp h with h1 | h2
        · exact h1
        · exact absurd h2 hx
      subst hpx
      rw [foldl_setRoProp_lookup_not_mem _ _ _ _ hx]
      unfold lookupRo
      rw [setRoProp_roProps, assocFind_cons_self]

@[simp] theorem foldl_setRoProp_links (l : List String) (s : FsState) (ro : Bool) :
    (l.foldl (fun acc p => setRoProp acc p ro) s).links = s.links := by
  induction l generalizing s with
  | nil => rfl
  | cons x xs ih =>
    rw [List.foldl_cons, ih]
    rfl

@[simp] theorem foldl_setRoProp_defaultSubvol (l : List String) (s : FsState) (ro : Bool) :
    (l.foldl (fun acc p => setRoProp acc p ro) s).defaultSubvol = s.defaultSubvol := by
  induction l generalizing s with
  | nil => rfl
  | cons x xs ih =>
    rw [List.foldl_cons, ih]
    rfl

@[simp] theorem foldl_setRoProp_subvols (l : List String) (s : FsState) (ro : Bool) :
    (l.foldl (fun acc p => setRoProp acc p ro) s).subvols = s.subvols := by
  induction l generalizing s with
  | nil => rfl
  | cons x xs ih =>
    rw [List.foldl_cons, ih]
    rfl

@[simp] theorem foldl_setRoProp_files (l : List String) (s : FsState) (ro : Bool) :
    (l.foldl (fun acc p => setRoProp acc p ro) s).files = s.files := by
  induction l generalizing s with
  | nil => rfl
  | cons x xs ih =>
    rw [List.foldl_cons, ih]
    rfl

@[simp] theorem foldl_setRoProp_metas (l : List String) (s : FsState) (ro : Bool) :
    (l.foldl (fun acc p => setRoProp acc p ro) s).metas = s.metas := by
  induction l generalizing s with
  | nil => rfl
  | cons x xs ih =>
    rw [List.foldl_cons, ih]
    rfl

@[simp] theorem addFile_links (s : FsState) (p c : String) : (addFile s p c).links = s.links := rfl

@[simp] theorem addFile_subvols (s : FsState) (p c : String) : (addFile s p c).subvols = s.subvols := rfl

@[simp] theorem addFile_roProps (s : FsState) (p c : String) : (addFile s p c).roProps = s.roProps := rfl

@[simp] theorem addFile_metas (s : FsState) (p c : String) : (addFile s p c).metas = s.metas := rfl

@[simp] theorem addFile_defaultSubvol (s : FsState) (p c : String) : (addFile s p c).defaultSubvol = s.defaultSubvol := rfl

@[simp] theorem removeFile_links (s : FsState) (p : String) : (removeFile s p).links = s.links := rfl

@[simp] theorem removeFile_subvols (s : FsState) (p : String) : (removeFile s p).subvols = s.subvols := rfl

@[simp] theorem removeFile_roProps (s : FsState) (p : String) : (removeFile s p).roProps = s.roProps := rfl

@[simp] theorem removeFile_metas (s : FsState) (p : String) : (removeFile s p).metas = s.metas := rfl

@[simp] theorem removeFile_defaultSubvol (s : FsState) (p : String) : (removeFile s p).defaultSubvol = s.defaultSubvol := rfl

@[simp] theorem setRoProp_files (s : FsState) (p : String) (v : Bool) : (setRoProp s p v).files = s.files := rfl

@[simp] theorem setRoProp_links (s : FsState) (p : String) (v : Bool) : (setRoProp s p v).links = s.links := rfl

@[simp] theorem setRoProp_subvols (s : FsState) (p : String) (v : Bool) : (setRoProp s p v).subvols = s.subvols := rfl

@[simp] theorem setRoProp_metas (s : FsState) (p : String) (v : Bool) : (setRoProp s p v).metas = s.metas := rfl

@[simp] theorem setRoProp_defaultSubvol (s : FsState) (p : String) (v : Bool) : (setRoProp s p v).defaultSubvol = s.defaultSubvol := rfl

@[simp] theorem setMeta_files (s : FsState) (d : String) (m : Meta) : (setMeta s d m).files = s.files := rfl

@[simp] theorem setMeta_links (s : FsState) (d : String) (m : Meta) : (setMeta s d m).links = s.links := rfl

@[simp] theorem setMeta_subvols (s : FsState) (d : String) (m : Meta) : (setMeta s d m).subvols = s.subvols := rfl

@[simp] theorem setMeta_roProps (s : FsState) (d : String) (m : Meta) : (setMeta s d m).roProps = s.roProps := rfl

@[simp] theorem setMeta_defaultSubvol (s : FsState) (d : String) (m : Meta) : (setMeta s d m).defaultSubvol = s.defaultSubvol := rfl

@[simp] theorem addLink_files (s : FsState) (p t : String) : (addLink s p t).files = s.files := rfl

@[simp] theorem addLink_subvols (s : FsState) (p t : String) : (addLink s p t).subvols = s.subvols := rfl

@[simp] theorem addLink_roProps (s : FsState) (p t : String) : (addLink s p t).roProps = s.roProps := rfl

@[simp] theorem addLink_metas (s : FsState) (p t : String) : (addLink s p t).metas = s.metas := rfl

@[simp] theorem addLink_defaultSubvol (s : FsState) (p t : String) : (addLink s p t).defaultSubvol = s.defaultSubvol := rfl

@[simp] theorem removeLink_files (s : FsState) (p : String) : (removeLink s p).files = s.files := rfl

@[simp] theorem removeLink_subvols (s : FsState) (p : String) : (removeLink s p).subvols = s.subvols := rfl

@[simp] theorem removeLink_roProps (s : FsState) (p : String) : (removeLink s p).roProps = s.roProps := rfl

@[simp] theorem removeLink_metas (s : FsState) (p : String) : (removeLink s p).metas = s.metas := rfl

@[simp] theorem removeLink_defaultSubvol (s : FsState) (p : String) : (removeLink s p).defaultSubvol = s.defaultSubvol := rfl

@[simp] theorem create_transaction_marker_links (s : FsState) (d : String) : (create_transaction_marker s d).links = s.links := rfl

@[simp] theorem create_transaction_marker_subvols (s : FsState) (d : String) : (create_transaction_marker s d).subvols = s.subvols := rfl

@[simp] theorem create_transaction_marker_roProps (s : FsState) (d : String) : (create_transaction_marker s d).roProps = s.roProps := rfl

@[simp] theorem create_transaction_marker_metas (s : FsState) (d : String) : (create_transaction_marker s d).metas = s.metas := rfl

@[simp] theorem create_transaction_marker_defaultSubvol (s : FsState) (d : String) : (create_transaction_marker s d).defaultSubvol = s.defaultSubvol := rfl

@[simp] theorem remove_transaction_marker_links (s : FsState) : (remove_transaction_marker s).links = s.links := rfl

@[simp] theorem remove_transaction_marker_subvols (s : FsState) : (remove_transaction_marker s).subvols = s.subvols := rfl

@[simp] theorem remove_transaction_marker_roProps (s : FsState) : (remove_transaction_marker s).roProps = s.roProps := rfl

@[simp] theorem remove_transaction_marker_metas (s : FsState) : (remove_transaction_marker s).metas = s.metas := rfl

@[simp] theorem remove_transaction_marker_defaultSubvol (s : FsState) : (remove_transaction_marker s).defaultSubvol = s.defaultSubvol := rfl

@[simp] theorem release_lock_links (s : FsState) : (release_lock s).links = s.links := rfl

@[simp] theorem release_lock_subvols (s : FsState) : (release_lock s).subvols = s.subvols := rfl

@[simp] theorem release_lock_roProps (s : FsState) : (release_lock s).roProps = s.roProps := rfl

@[simp] theorem release_lock_metas (s : FsState) : (release_lock s).metas = s.metas := rfl

@[simp] theorem release_lock_defaultSubvol (s : FsState) : (release_lock s).defaultSubvol = s.defaultSubvol := rfl

@[simp] theorem write_meta_files (s : FsState) (a b c d e f : String) (env : Env) : (write_meta s a b c d e f env).files = s.files := rfl

@[simp] theorem write_meta_links (s : FsState) (a b c d e f : String) (env : Env) : (write_meta s a b c d e f env).links = s.links := rfl

@[simp] theorem write_meta_subvols (s : FsState) (a b c d e f : String) (env : Env) : (write_meta s a b c d e f env).subvols = s.subvols := rfl

@[simp] theorem write_meta_roProps (s : FsState) (a b c d e f : String) (env : Env) : (write_meta s a b c d e f env).roProps = s.roProps := rfl

@[simp] theorem write_meta_defaultSubvol (s : FsState) (a b c d e f : String) (env : Env) : (write_meta s a b c d e f env).defaultSubvol = s.defaultSubvol := rfl




theorem acquire_lock_ok_links (s s2 : FsState) (h : acquire_lock s = .ok s2) :
    s2.links = s.links := by
  unfold acquire_lock at h
  split at h
  · cases h
  · cases h; simp

theorem acquire_lock_ok_defaultSubvol (s s2 : FsState) (h : acquire_lock s = .ok s2) :
    s2.defaultSubvol = s.defaultSubvol := by
  unfold acquire_lock at h
  split at h
  · cases h
  · cases h; simp

theorem create_deployment_ok (env : Env) (s : FsState) (w : Bool) (nd : String)
    (s2 : FsState) (h : create_deployment env s w = .ok (nd, s2)) :
    s2.links = s.links ∧ s2.defaultSubvol = s.defaultSubvol := by
  unfold create_deployment snapshot_recursive set_readonly_recursive set_subvolume_readonly at h
  repeat' split at h
  all_goals (try (cases h))
  all_goals (try contradiction)
  all_goals exact ⟨by simp, by simp⟩

theorem create_deployment_ok_links (env : Env) (s : FsState) (w : Bool) (nd : String)
    (s2 : FsState) (h : create_deployment env s w = .ok (nd, s2)) : s2.links = s.links :=
  (create_deployment_ok env s w nd s2 h).1

theorem create_deployment_ok_defaultSubvol (env : Env) (s : FsState) (w : Bool) (nd : String)
    (s2 : FsState) (h : create_deployment env s w = .ok (nd, s2)) :
    s2.defaultSubvol = s.defaultSubvol :=
  (create_deployment_ok env s w nd s2 h).2

theorem update_meta_ok (s : FsState) (d : String) (st rr : Option String)
    (s2 : FsState) (h : update_meta s d st rr = .ok s2) :
    s2.links = s.links ∧ s2.defaultSubvol = s.defaultSubvol := by
  unfold update_meta at h
  split at h
  · cases h; exact ⟨rfl, rfl⟩
  · cases h; exact ⟨by simp, by simp⟩

set_option maxHeartbeats 1000000 in
/-- The pre-switch steps of the inner transaction never touch the current
symlink or the default subvolume. -/
theorem tx_inner_frame (check : Precheck) (descr : String) (env : Env) (s0 : FsState) :
    (tx_inner check descr env s0).reachedSwitch = false →
    (tx_inner check descr env s0).state.links = s0.links ∧
    (tx_inner check descr env s0).state.defaultSubvol = s0.defaultSubvol := by
  unfold tx_inner
  dsimp only
  repeat' split
  all_goals intro h
  all_goals (try (exact Bool.noConfusion h))
  all_goals
    (try (have hal1 := acquire_lock_ok_links _ _ (by assumption)
          have hal2 := acquire_lock_ok_defaultSubvol _ _ (by assumption)))
  all_goals
    (try (have hcd1 := create_deployment_ok_links _ _ _ _ _ (by assumption)
          have hcd2 := create_deployment_ok_defaultSubvol _ _ _ _ _ (by assumption)))
  all_goals (refine ⟨?_, ?_⟩ <;> simp_all)

/-- The outer wrapper (mark broken, cleanup mounts, release the lock)
also never touches the current symlink or the default subvolume, so a
transaction that fails before the switch leaves both as they were. -/
theorem atomic_transaction_frame (check : Precheck) (descr : String) (env : Env)
    (s0 : FsState) (h : (tx_inner check descr env s0).reachedSwitch = false) :
    readLink (atomic_transaction check descr env s0).2 CURRENT_SYMLINK =
      readLink s0 CURRENT_SYMLINK ∧
    (atomic_transaction check descr env s0).2.defaultSubvol = s0.defaultSubvol := by
  obtain ⟨h1, h2⟩ := tx_inner_frame check descr env s0 h
  unfold atomic_transaction
  dsimp only
  constructor
  · unfold readLink
    repeat' split
    all_goals simp_all
    all_goals
      (have hum := update_meta_ok _ _ _ _ _ (by assumption)
       simp_all)
  · repeat' split
    all_goals simp_all
    all_goals
      (have hum := update_meta_ok _ _ _ _ _ (by assumption)
       simp_all)


/-- C1: For every mutating verb (install, remove, refresh), if any step
fails before the final switch (set_current + set-default), the current
pointer symlink and the Btrfs default subvolume after the verb returns are
equal to their values before the verb started. -/
theorem C1_failure_before_switch_preserves_boot_target
    (package : String) (env : Env) (s0 : FsState) :
    ((tx_inner .errIfInstalled ("install " ++ package) env s0).reachedSwitch = false →
      readLink (atomic_install package env s0).2 CURRENT_SYMLINK =
        readLink s0 CURRENT_SYMLINK ∧
      (atomic_install package env s0).2.defaultSubvol = s0.defaultSubvol) ∧
    ((tx_inner .errIfNotInstalled ("remove " ++ package) env s0).reachedSwitch = false →
      readLink (atomic_remove package env s0).2 CURRENT_SYMLINK =
        readLink s0 CURRENT_SYMLINK ∧
      (atomic_remove package env s0).2.defaultSubvol = s0.defaultSubvol) ∧
    ((tx_inner .noCheck "refresh" env s0).reachedSwitch = false →
      readLink (atomic_refresh env s0).2 CURRENT_SYMLINK =
        readLink s0 CURRENT_SYMLINK ∧
      (atomic_refresh env s0).2.defaultSubvol = s0.defaultSubvol) :=
  ⟨fun h => atomic_transaction_frame _ _ env s0 h,
   fun h => atomic_transaction_frame _ _ env s0 h,
   fun h => atomic_transaction_frame _ _ env s0 h⟩

/-- Witness for C1: a concrete install whose chroot step fails keeps the
current pointer and the default subvolume unchanged. -/
theorem C1_failure_before_switch_preserves_boot_target_witness :
    (tx_inner .errIfInstalled ("install " ++ "htop") envChrootFail baseState).reachedSwitch = false ∧
    readLink (atomic_install "htop" envChrootFail baseState).2 CURRENT_SYMLINK =
      readLink baseState CURRENT_SYMLINK ∧
    (atomic_install "htop" envChrootFail baseState).2.defaultSubvol = baseState.defaultSubvol :=
  ⟨by decide,
   ((C1_failure_before_switch_preserves_boot_target "htop" envChrootFail baseState).1
     (by decide)).1,
   ((C1_failure_before_switch_preserves_boot_target "htop" envChrootFail baseState).1
     (by decide)).2⟩


set_option maxHeartbeats 4000000 in
/-- Symbolic execution of a mutating transaction in which every external
command succeeds: it returns Ok, creates deployments/hammer-<timestamp>,
switches the current symlink and default subvolume to it, writes its
sidecar with status ready and the post-upgrade fingerprint, and seals its
top subvolume. -/
theorem atomic_transaction_success (check : Precheck) (descr : String) (env : Env)
    (s0 : FsState) (c : String) (henv : EnvSucceeds env) (hs : StateHealthy s0 c)
    (hpre : runPrecheck check env = .ok ()) :
    (atomic_transaction check descr env s0).1 = .ok () ∧
    readLink (atomic_transaction check descr env s0).2 CURRENT_SYMLINK =
      some (DEPLOYMENTS_DIR ++ "/hammer-" ++ env.timestamp) ∧
    (atomic_transaction check descr env s0).2.defaultSubvol =
      env.subvolId (DEPLOYMENTS_DIR ++ "/hammer-" ++ env.timestamp) ∧
    subvolExists (atomic_transaction check descr env s0).2
      (DEPLOYMENTS_DIR ++ "/hammer-" ++ env.timestamp) = true ∧
    lookupMeta (atomic_transaction check descr env s0).2
      (DEPLOYMENTS_DIR ++ "/hammer-" ++ env.timestamp) =
      some { created := env.now, description := descr, parent := fileName c,
             kernel := env.kernel,
             system_version := env.sha256hex env.packagesList,
             status := "ready", rollback_reason := none } ∧
    lookupRo (atomic_transaction check descr env s0).2
      (DEPLOYMENTS_DIR ++ "/hammer-" ++ env.timestamp) = some true := by
  obtain ⟨e1, e2, e3, e4, e5, e6, e7, e8, e9, e10, e11, e12, e13, e14, e15, e16⟩ := henv
  obtain ⟨hs1, hs2, hs3, hs4⟩ := hs
  simp only [readLink, lookupRo, pathExistsFile, subvolExists] at hs1 hs2 hs3 hs4
  refine ⟨?_, ?_, ?_, ?_, ?_, ?_⟩ <;>
    simp [atomic_transaction, tx_inner, acquire_lock, validate_system,
      ensure_top_mounted, get_root_device, create_deployment, snapshot_recursive,
      set_readonly_recursive, set_subvolume_readonly, create_transaction_marker,
      get_kernel_version, compute_system_version, write_meta,
      get_subvol_id, switch_to_deployment_inner, pathExistsFollowingLink,
      remove_transaction_marker, release_lock, readLink, lookupFile, isSymlink,
      pathExistsFile, subvolExists, memStr, lookupRo, lookupMeta,
      e1, e2, e3, e4, e5, e6, e7, e8, e9, e10, e11, e12, e13, e14, e15, e16,
      hs1, hs2, hs3, hs4, hpre]

set_option maxHeartbeats 4000000 in
/-- In the same all-success run, every nested subvolume inside the new
deployment still has ro=false afterwards: creation set the whole snapshot
tree writable and the seal step touches only the top subvolume. -/
theorem atomic_transaction_success_nested (check : Precheck) (descr : String)
    (env : Env) (s0 : FsState) (c : String) (henv : EnvSucceeds env)
    (hs : StateHealthy s0 c) (hpre : runPrecheck check env = .ok ())
    (hfresh : ∀ p ∈ s0.subvols,
      strStartsWith p ((DEPLOYMENTS_DIR ++ "/hammer-" ++ env.timestamp) ++ "/") = false) :
    ∀ p, p ∈ (atomic_transaction check descr env s0).2.subvols →
      strStartsWith p ((DEPLOYMENTS_DIR ++ "/hammer-" ++ env.timestamp) ++ "/") = true →
      lookupRo (atomic_transaction check descr env s0).2 p = some false := by
  obtain ⟨e1, e2, e3, e4, e5, e6, e7, e8, e9, e10, e11, e12, e13, e14, e15, e16⟩ := henv
  obtain ⟨hs1, hs2, hs3, hs4⟩ := hs
  simp only [readLink, lookupRo, pathExistsFile, subvolExists] at hs1 hs2 hs3 hs4
  intro p hp hpfx
  have hnd : p ≠ DEPLOYMENTS_DIR ++ "/hammer-" ++ env.timestamp :=
    ne_of_strStartsWith_slash p _ hpfx
  simp [atomic_transaction, tx_inner, acquire_lock, validate_system,
    ensure_top_mounted, get_root_device, create_deployment, snapshot_recursive,
    set_readonly_recursive, set_subvolume_readonly, create_transaction_marker,
    get_kernel_version, compute_system_version, write_meta,
    get_subvol_id, switch_to_deployment_inner, pathExistsFollowingLink,
    remove_transaction_marker, release_lock, readLink, lookupFile, isSymlink,
    pathExistsFile, subvolExists, memStr, lookupRo, lookupMeta,
    e1, e2, e3, e4, e5, e6, e7, e8, e9, e10, e11, e12, e13, e14, e15, e16,
    hs1, hs2, hs3, hs4, hpre] at hp ⊢
  rw [assocFind_cons_ne _ _ _ _ (Ne.symm hnd), assocFind_assocErase_ne _ _ _ hnd]
  rcases hp with hp1 | ⟨a, ha, rfl⟩ | hp3
  · exact absurd hp1 hnd
  · refine foldl_setRoProp_lookup_mem _ _ _ _ ?_
    simp [nestedOf, List.mem_filter] at ha
    simp [nestedOf, List.mem_filter, hpfx]
    exact Or.inr (Or.inl ⟨a, ha, rfl⟩)
  · exact absurd (hfresh p hp3) (by simp [hpfx])


/-- C4 (amended): atomic_refresh has no idempotency short-circuit and no
force flag: whenever its external steps succeed it creates the deployment
hammer-<timestamp>, switches the current pointer and default subvolume to
it, and only afterwards computes the fingerprint from the new tree's
package list and stores it in the new sidecar - with no comparison against
the current deployment's system_version (the hypotheses place no
constraint on the fingerprints, which may in particular be equal). -/
theorem C4_refresh_never_short_circuits (env : Env) (s0 : FsState) (c : String)
    (henv : EnvSucceeds env) (hs : StateHealthy s0 c) :
    (atomic_refresh env s0).1 = .ok () ∧
    subvolExists (atomic_refresh env s0).2
      (DEPLOYMENTS_DIR ++ "/hammer-" ++ env.timestamp) = true ∧
    readLink (atomic_refresh env s0).2 CURRENT_SYMLINK =
      some (DEPLOYMENTS_DIR ++ "/hammer-" ++ env.timestamp) ∧
    (atomic_refresh env s0).2.defaultSubvol =
      env.subvolId (DEPLOYMENTS_DIR ++ "/hammer-" ++ env.timestamp) ∧
    (lookupMeta (atomic_refresh env s0).2
        (DEPLOYMENTS_DIR ++ "/hammer-" ++ env.timestamp)).map Meta.system_version =
      some (env.sha256hex env.packagesList) := by
  unfold atomic_refresh
  obtain ⟨h1, h2, h3, h4, h5, h6⟩ :=
    atomic_transaction_success .noCheck "refresh" env s0 c henv hs rfl
  exact ⟨h1, h4, h2, h3, by rw [h5]; rfl⟩

/-- Witness for C4: the amended behavior at a concrete state whose current
sidecar fingerprint already equals the one the refresh will compute. -/
theorem C4_refresh_never_short_circuits_witness :
    (EnvSucceeds envAllOk ∧ StateHealthy matchedFpState curDep ∧
     (lookupMeta matchedFpState curDep).map Meta.system_version =
       some (envAllOk.sha256hex envAllOk.packagesList)) ∧
    ((atomic_refresh envAllOk matchedFpState).1 = .ok () ∧
     subvolExists (atomic_refresh envAllOk matchedFpState).2
       (DEPLOYMENTS_DIR ++ "/hammer-" ++ envAllOk.timestamp) = true ∧
     readLink (atomic_refresh envAllOk matchedFpState).2 CURRENT_SYMLINK =
       some (DEPLOYMENTS_DIR ++ "/hammer-" ++ envAllOk.timestamp) ∧
     (atomic_refresh envAllOk matchedFpState).2.defaultSubvol =
       envAllOk.subvolId (DEPLOYMENTS_DIR ++ "/hammer-" ++ envAllOk.timestamp) ∧
     (lookupMeta (atomic_refresh envAllOk matchedFpState).2
         (DEPLOYMENTS_DIR ++ "/hammer-" ++ envAllOk.timestamp)).map Meta.system_version =
       some (envAllOk.sha256hex envAllOk.packagesList)) :=
  ⟨⟨by decide, by decide, by decide⟩,
   C4_refresh_never_short_circuits envAllOk matchedFpState curDep (by decide) (by decide)⟩

/-- Counterexample to C4 as stated: at a concrete state whose current
system_version equals the fingerprint the refresh computes, the verb still
creates a new deployment and moves the current pointer to it. -/
theorem C4_counterexample_refresh_deploys_on_match :
    (lookupMeta matchedFpState curDep).map Meta.system_version =
      some (envAllOk.sha256hex envAllOk.packagesList) ∧
    (atomic_refresh envAllOk matchedFpState).1 = .ok () ∧
    subvolExists (atomic_refresh envAllOk matchedFpState).2 newDep = true ∧
    subvolExists matchedFpState newDep = false ∧
    readLink (atomic_refresh envAllOk matchedFpState).2 CURRENT_SYMLINK = some newDep ∧
    readLink matchedFpState CURRENT_SYMLINK = some curDep ∧
    newDep ≠ curDep := by decide

/-- C8 (amended): before the switch, sealing applies the ro=true property
only to the new deployment's top subvolume; every nested subvolume inside
it (set writable at creation) still has ro=false after the verb returns. -/
theorem C8_seal_is_top_level_only (package : String) (env : Env) (s0 : FsState)
    (c : String) (henv : EnvSucceeds env) (hs : StateHealthy s0 c)
    (hpre : runPrecheck .errIfInstalled env = .ok ())
    (hfresh : ∀ p ∈ s0.subvols,
      strStartsWith p ((DEPLOYMENTS_DIR ++ "/hammer-" ++ env.timestamp) ++ "/") = false) :
    lookupRo (atomic_install package env s0).2
      (DEPLOYMENTS_DIR ++ "/hammer-" ++ env.timestamp) = some true ∧
    ∀ p, p ∈ (atomic_install package env s0).2.subvols →
      strStartsWith p ((DEPLOYMENTS_DIR ++ "/hammer-" ++ env.timestamp) ++ "/") = true →
      lookupRo (atomic_install package env s0).2 p = some false :=
  ⟨(atomic_transaction_success .errIfInstalled ("install " ++ package) env s0 c
      henv hs hpre).2.2.2.2.2,
   atomic_transaction_success_nested .errIfInstalled ("install " ++ package) env s0 c
     henv hs hpre hfresh⟩

/-- Witness for C8: concrete successful install over a current deployment
with one nested subvolume. -/
theorem C8_seal_is_top_level_only_witness :
    (EnvSucceeds envAllOk ∧ StateHealthy nestedState curDep ∧
     runPrecheck .errIfInstalled envAllOk = .ok () ∧
     (∀ p ∈ nestedState.subvols,
       strStartsWith p ((DEPLOYMENTS_DIR ++ "/hammer-" ++ envAllOk.timestamp) ++ "/") = false)) ∧
    (lookupRo (atomic_install "htop" envAllOk nestedState).2
       (DEPLOYMENTS_DIR ++ "/hammer-" ++ envAllOk.timestamp) = some true ∧
     ∀ p, p ∈ (atomic_install "htop" envAllOk nestedState).2.subvols →
       strStartsWith p ((DEPLOYMENTS_DIR ++ "/hammer-" ++ envAllOk.timestamp) ++ "/") = true →
       lookupRo (atomic_install "htop" envAllOk nestedState).2 p = some false) :=
  ⟨⟨by decide, by decide, by decide, by decide⟩,
   C8_seal_is_top_level_only "htop" envAllOk nestedState curDep
     (by decide) (by decide) (by decide) (by decide)⟩

/-- Counterexample to C8 as stated: after a fully successful install over
a tree with a nested subvolume, the nested snapshot inside the sealed and
switched-to deployment still has ro=false. -/
theorem C8_counterexample_nested_left_writable :
    (atomic_install "htop" envAllOk nestedState).1 = .ok () ∧
    lookupRo (atomic_install "htop" envAllOk nestedState).2 newDep = some true ∧
    subvolExists (atomic_install "htop" envAllOk nestedState).2 (newDep ++ "/home") = true ∧
    lookupRo (atomic_install "htop" envAllOk nestedState).2 (newDep ++ "/home") = some false := by
  decide

/-- C10: marking a deployment broken is a silent no-op when it has no
metadata sidecar: update_meta (and so set_status_broken) returns Ok with
the state unchanged, creating no sidecar and recording no status. -/
theorem C10_update_meta_noop_without_sidecar (s : FsState) (d : String)
    (st rr : Option String) (h : lookupMeta s d = none) :
    update_meta s d st rr = .ok s ∧ set_status_broken s d = .ok s := by
  constructor <;> simp [update_meta, set_status_broken, h]

/-- Witness for C10 at a deployment that has no sidecar. -/
theorem C10_update_meta_noop_without_sidecar_witness :
    lookupMeta baseState newDep = none ∧
    (update_meta baseState newDep (some "broken") none = .ok baseState ∧
     set_status_broken baseState newDep = .ok baseState) :=
  ⟨by decide,
   C10_update_meta_noop_without_sidecar baseState newDep (some "broken") none (by decide)⟩

/-- C9: get_root_device does NOT strip a [<path>] subvolume suffix from
the findmnt output: Rust String::replace treats the regular-expression
pattern as a literal string, so /dev/sda2[/@] is passed through unchanged
rather than reduced to /dev/sda2. -/
theorem C9_subvol_suffix_not_stripped :
    get_root_device_of "/dev/sda2[/@]\n" = "/dev/sda2[/@]" ∧
    get_root_device_of "/dev/sda2[/@]\n" ≠ "/dev/sda2" ∧
    rustReplace "/dev/sda2[/@]" "\\[.*\\]" "" = "/dev/sda2[/@]" := by decide

/-- C5: the transaction marker is created as an EMPTY file at
<new-deployment>/hammer-transaction, not at the fixed TRANSACTION_MARKER
path; remove_transaction_marker deletes the fixed path, so after a fully
successful install the in-deployment marker still exists while the fixed
path never held one. -/
theorem C5_marker_inside_deployment_not_at_fixed_path :
    (atomic_install "htop" envAllOk baseState).1 = .ok () ∧
    lookupFile (atomic_install "htop" envAllOk baseState).2
      (newDep ++ "/hammer-transaction") = some "" ∧
    lookupFile (atomic_install "htop" envAllOk baseState).2 TRANSACTION_MARKER = none ∧
    lookupFile baseState TRANSACTION_MARKER = none ∧
    remove_transaction_marker (create_transaction_marker baseState newDep) =
      create_transaction_marker baseState newDep := by decide


/-- C3 (amended): a mutating verb invoked while the lock file exists fails
immediately with the "operation in progress" error and performs no
mutation - but install, remove and refresh then delete the pre-existing
lock file in their unconditional exit path, while switch, rollback and
cleanup leave the state (lock included) untouched. -/
theorem C3_lock_fail_fast (package : String) (d : Option String) (n : Nat)
    (env : Env) (s : FsState) (h : pathExistsFile s LOCK_FILE = true) :
    atomic_install package env s =
      (.error "Hammer operation in progress (lock file exists).", removeFile s LOCK_FILE) ∧
    atomic_remove package env s =
      (.error "Hammer operation in progress (lock file exists).", removeFile s LOCK_FILE) ∧
    atomic_refresh env s =
      (.error "Hammer operation in progress (lock file exists).", removeFile s LOCK_FILE) ∧
    switch_deployment d env s =
      (.error "Hammer operation in progress (lock file exists).", s) ∧
    rollback n env s =
      (.error "Hammer operation in progress (lock file exists).", s) ∧
    clean_up env s =
      (.error "Hammer operation in progress (lock file exists).", s) := by
  refine ⟨?_, ?_, ?_, ?_, ?_, ?_⟩ <;>
    simp [atomic_install, atomic_remove, atomic_refresh, atomic_transaction,
      tx_inner, acquire_lock, switch_deployment, rollback, clean_up,
      release_lock, h]

/-- Witness for C3 at a concrete locked state. -/
theorem C3_lock_fail_fast_witness :
    pathExistsFile lockedState LOCK_FILE = true ∧
    (atomic_install "htop" envAllOk lockedState =
      (.error "Hammer operation in progress (lock file exists).",
        removeFile lockedState LOCK_FILE) ∧
     atomic_remove "htop" envAllOk lockedState =
      (.error "Hammer operation in progress (lock file exists).",
        removeFile lockedState LOCK_FILE) ∧
     atomic_refresh envAllOk lockedState =
      (.error "Hammer operation in progress (lock file exists).",
        removeFile lockedState LOCK_FILE) ∧
     switch_deployment (some "hammer-20240101000000") envAllOk lockedState =
      (.error "Hammer operation in progress (lock file exists).", lockedState) ∧
     rollback 1 envAllOk lockedState =
      (.error "Hammer operation in progress (lock file exists).", lockedState) ∧
     clean_up envAllOk lockedState =
      (.error "Hammer operation in progress (lock file exists).", lockedState)) :=
  ⟨by decide,
   C3_lock_fail_fast "htop" (some "hammer-20240101000000") 1 envAllOk lockedState (by decide)⟩

/-- Counterexample to C3 as stated: the verb does fail fast and mutates
nothing, but the pre-existing lock file does NOT survive - atomic_install
deletes it on the way out. -/
theorem C3_counterexample_lock_file_deleted :
    pathExistsFile lockedState LOCK_FILE = true ∧
    (atomic_install "htop" envAllOk lockedState).1 =
      .error "Hammer operation in progress (lock file exists)." ∧
    subvolExists (atomic_install "htop" envAllOk lockedState).2 newDep = false ∧
    pathExistsFile (atomic_install "htop" envAllOk lockedState).2 LOCK_FILE = false := by
  decide

/-- C2 (amended): after a crash that left the lock file and the stale
transaction marker, the next mutating verb fails with the
lock-file-exists error (whose text does not direct the operator to
cleanup) and deletes the stale lock file on exit; clean_up run while the
lock file exists fails with the same error and changes nothing at all -
in particular it removes neither the marker's referenced deployment nor
the lock file, and no code path ever consults the marker. -/
theorem C2_no_cleanup_recovery_path (package : String) (env : Env) (s : FsState)
    (h : pathExistsFile s LOCK_FILE = true) :
    ((atomic_install package env s).1 =
        .error "Hammer operation in progress (lock file exists)." ∧
      pathExistsFile (atomic_install package env s).2 LOCK_FILE = false) ∧
    clean_up env s = (.error "Hammer operation in progress (lock file exists).", s) := by
  have h2 : (assocFind s.files LOCK_FILE).isSome = true := h
  refine ⟨⟨?_, ?_⟩, ?_⟩ <;>
    simp [atomic_install, atomic_transaction, tx_inner, acquire_lock, clean_up,
      release_lock, pathExistsFile, assocFind_assocErase_self, h, h2]

/-- Witness for C2 at the concrete crashed state. -/
theorem C2_no_cleanup_recovery_path_witness :
    pathExistsFile crashedState LOCK_FILE = true ∧
    (((atomic_install "big-pkg" envAllOk crashedState).1 =
        .error "Hammer operation in progress (lock file exists)." ∧
      pathExistsFile (atomic_install "big-pkg" envAllOk crashedState).2 LOCK_FILE = false) ∧
     clean_up envAllOk crashedState =
      (.error "Hammer operation in progress (lock file exists).", crashedState)) :=
  ⟨by decide, C2_no_cleanup_recovery_path "big-pkg" envAllOk crashedState (by decide)⟩

/-- Counterexample to C2 as stated: with lock and marker present, cleanup
itself fails on the lock check and removes neither the marker's referenced
deployment nor the lock file; nothing in its error mentions recovery. -/
theorem C2_counterexample_cleanup_blocked :
    pathExistsFile crashedState LOCK_FILE = true ∧
    lookupFile crashedState TRANSACTION_MARKER = some crashedDep ∧
    clean_up envAllOk crashedState =
      (.error "Hammer operation in progress (lock file exists).", crashedState) ∧
    subvolExists (clean_up envAllOk crashedState).2 crashedDep = true ∧
    pathExistsFile (clean_up envAllOk crashedState).2 LOCK_FILE = true ∧
    lookupFile (clean_up envAllOk crashedState).2 TRANSACTION_MARKER = some crashedDep := by
  decide


theorem mem_eraseStr (l : List String) (d x : String) :
    x ∈ eraseStr l d ↔ x ∈ l ∧ x ≠ d := by
  induction l with
  | nil => simp [eraseStr]
  | cons y ys ih =>
    by_cases hy : y = d
    · subst hy
      rw [show eraseStr (y :: ys) y = eraseStr ys y from by simp [eraseStr]]
      rw [ih]
      simp only [List.mem_cons]
      constructor
      · rintro ⟨hm, hne⟩
        exact ⟨Or.inr hm, hne⟩
      · rintro ⟨hm | hm, hne⟩
        · exact absurd hm hne
        · exact ⟨hm, hne⟩
    · rw [show eraseStr (y :: ys) d = y :: eraseStr ys d from by simp [eraseStr, hy]]
      simp only [List.mem_cons, ih]
      constructor
      · rintro (rfl | ⟨hm, hne⟩)
        · exact ⟨Or.inl rfl, hy⟩
        · exact ⟨Or.inr hm, hne⟩
      · rintro ⟨rfl | hm, hne⟩
        · exact Or.inl rfl
        · exact Or.inr ⟨hm, hne⟩

@[simp] theorem get_deployments_addFile (s : FsState) (p c : String) :
    get_deployments (addFile s p c) = get_deployments s := rfl

theorem delete_deployments_subvols (env : Env) (hdel : ∀ d, env.deleteOk d = true)
    (l : List String) (s : FsState) (x : String) :
    x ∈ (delete_deployments env s l).subvols ↔ x ∈ s.subvols ∧ x ∉ l := by
  induction l generalizing s with
  | nil => simp [delete_deployments]
  | cons d ds ih =>
    rw [show delete_deployments env s (d :: ds) =
          delete_deployments env { s with subvols := eraseStr s.subvols d } ds from by
        simp [delete_deployments, hdel d]]
    rw [ih]
    simp only [mem_eraseStr, List.mem_cons]
    constructor
    · rintro ⟨⟨hm, hne⟩, hnm⟩
      refine ⟨hm, ?_⟩
      rintro (rfl | hc)
      · exact hne rfl
      · exact hnm hc
    · rintro ⟨hm, hn⟩
      exact ⟨⟨hm, fun hx => hn (Or.inl hx)⟩, fun hx => hn (Or.inr hx)⟩

/-- C6 (amended): clean_up sorts the deployments ascending by name and
deletes every one but the five newest, oldest first, with NO exemption for
the deployment the current (or any other) symlink points at: the
surviving subvolumes are exactly those not among the (length - 5) oldest
deployments. -/
theorem C6_cleanup_retains_newest_five (env : Env) (s0 : FsState) (c : String)
    (hfs : env.fsShowOk = true) (hpg : env.propGetOk = true)
    (hdel : ∀ d, env.deleteOk d = true) (hs : StateHealthy s0 c) :
    (clean_up env s0).1 = .ok () ∧
    ∀ x, x ∈ (clean_up env s0).2.subvols ↔
      (x ∈ s0.subvols ∧
        x ∉ (sortBy strLe (get_deployments s0)).take
          ((sortBy strLe (get_deployments s0)).length - 5)) := by
  obtain ⟨hs1, hs2, hs3, hs4⟩ := hs
  simp only [pathExistsFile, readLink, lookupRo] at hs1 hs2 hs3
  constructor
  · simp [clean_up, acquire_lock, validate_system, pathExistsFile, isSymlink,
      readLink, lookupRo, hs1, hs2, hs3, hfs, hpg]
  · intro x
    simp only [clean_up, acquire_lock, validate_system, pathExistsFile, isSymlink,
      readLink, lookupRo]
    simp [hs1, hs2, hs3, hfs, hpg]
    split
    · rw [delete_deployments_subvols env hdel]
      simp
    · rename_i hle
      have h0 : (sortBy strLe (get_deployments s0)).length - 5 = 0 :=
        Nat.sub_eq_zero_of_le (Nat.le_of_not_lt hle)
      simp [h0]

/-- Witness for C6: with eight deployments whose current is the oldest,
exactly the three oldest are deleted - the current one among them. -/
theorem C6_cleanup_retains_newest_five_witness :
    (envAllOk.fsShowOk = true ∧ envAllOk.propGetOk = true ∧
     (∀ d, envAllOk.deleteOk d = true) ∧ StateHealthy gcState (gcDep "1")) ∧
    ((clean_up envAllOk gcState).1 = .ok () ∧
     ∀ x, x ∈ (clean_up envAllOk gcState).2.subvols ↔
       (x ∈ gcState.subvols ∧
         x ∉ (sortBy strLe (get_deployments gcState)).take
           ((sortBy strLe (get_deployments gcState)).length - 5))) :=
  ⟨⟨by decide, by decide, fun d => rfl, by decide⟩,
   C6_cleanup_retains_newest_five envAllOk gcState (gcDep "1")
     (by decide) (by decide) (fun d => rfl) (by decide)⟩

/-- Counterexample to C6 as stated: clean_up deletes the oldest
deployments even when one of them is the current deployment. -/
theorem C6_counterexample_cleanup_deletes_current :
    readLink gcState CURRENT_SYMLINK = some (gcDep "1") ∧
    (clean_up envAllOk gcState).1 = .ok () ∧
    subvolExists gcState (gcDep "1") = true ∧
    subvolExists (clean_up envAllOk gcState).2 (gcDep "1") = false ∧
    subvolExists (clean_up envAllOk gcState).2 (gcDep "2") = false ∧
    subvolExists (clean_up envAllOk gcState).2 (gcDep "3") = false ∧
    subvolExists (clean_up envAllOk gcState).2 (gcDep "4") = true := by decide


/-- C7 (amended): rollback n requires at least n+1 deployments and
switches the current pointer and default subvolume to the deployment at
index n of the list sorted DESCENDING by name - the (n+1)-th newest,
with no regard to which deployment is current; the DEPOSED current's
sidecar status is set to "rollback" with rollback_reason "user requested",
while the target's sidecar is not modified and nothing is marked
"previous". -/
theorem C7_rollback_targets_nth_newest (n : Nat) (env : Env) (s0 : FsState)
    (c : String) (mc : Meta)
    (hfs : env.fsShowOk = true) (hpg : env.propGetOk = true)
    (hid : env.subvolIdOk = true) (hsd : env.setDefaultOk = true)
    (hs : StateHealthy s0 c)
    (hmc : lookupMeta s0 c = some mc)
    (hlen : n + 1 ≤ (sortBy strGe (get_deployments s0)).length)
    (htc : (sortBy strGe (get_deployments s0)).getD n "" ≠ c) :
    (rollback n env s0).1 = .ok () ∧
    readLink (rollback n env s0).2 CURRENT_SYMLINK =
      some ((sortBy strGe (get_deployments s0)).getD n "") ∧
    (rollback n env s0).2.defaultSubvol =
      env.subvolId ((sortBy strGe (get_deployments s0)).getD n "") ∧
    lookupMeta (rollback n env s0).2 c =
      some { mc with status := "rollback", rollback_reason := some "user requested" } ∧
    lookupMeta (rollback n env s0).2 ((sortBy strGe (get_deployments s0)).getD n "") =
      lookupMeta s0 ((sortBy strGe (get_deployments s0)).getD n "") := by
  obtain ⟨hs1, hs2, hs3, hs4⟩ := hs
  simp only [pathExistsFile, readLink, lookupRo, subvolExists] at hs1 hs2 hs3 hs4
  simp only [lookupMeta] at hmc
  have hnlt : ¬ ((sortBy strGe (get_deployments s0)).length < n + 1) :=
    Nat.not_lt.mpr hlen
  refine ⟨?_, ?_, ?_, ?_, ?_⟩ <;>
    simp [rollback, acquire_lock, validate_system, pathExistsFile, isSymlink,
      readLink, lookupRo, lookupMeta, subvolExists, memStr, get_subvol_id,
      switch_to_deployment_inner, pathExistsFollowingLink, update_meta,
      release_lock, hs1, hs2, hs3, hs4, hmc, hfs, hpg, hid, hsd, hnlt]
  have htc2 : (sortBy strGe (get_deployments s0))[n]?.getD "" ≠ c := by
    simpa [List.getD] using htc
  rw [assocFind_cons_ne _ _ _ _ (Ne.symm htc2), assocFind_assocErase_ne _ _ _ htc2]

/-- Witness for C7: three deployments A < B < C with C current; rollback 1
lands on B, marks C rollback / "user requested" and leaves B's sidecar
untouched. -/
theorem C7_rollback_targets_nth_newest_witness :
    (StateHealthy rbState (gcDep "3") ∧
     lookupMeta rbState (gcDep "3") = some metaC ∧
     1 + 1 ≤ (sortBy strGe (get_deployments rbState)).length ∧
     (sortBy strGe (get_deployments rbState)).getD 1 "" ≠ gcDep "3") ∧
    ((rollback 1 envAllOk rbState).1 = .ok () ∧
     readLink (rollback 1 envAllOk rbState).2 CURRENT_SYMLINK =
       some ((sortBy strGe (get_deployments rbState)).getD 1 "") ∧
     (rollback 1 envAllOk rbState).2.defaultSubvol =
       envAllOk.subvolId ((sortBy strGe (get_deployments rbState)).getD 1 "") ∧
     lookupMeta (rollback 1 envAllOk rbState).2 (gcDep "3") =
       some { metaC with status := "rollback", rollback_reason := some "user requested" } ∧
     lookupMeta (rollback 1 envAllOk rbState).2
         ((sortBy strGe (get_deployments rbState)).getD 1 "") =
       lookupMeta rbState ((sortBy strGe (get_deployments rbState)).getD 1 "")) :=
  ⟨⟨by decide, by decide, by decide, by decide⟩,
   C7_rollback_targets_nth_newest 1 envAllOk rbState (gcDep "3") metaC
     (by decide) (by decide) (by decide) (by decide) (by decide) (by decide)
     (by decide) (by decide)⟩

/-- Counterexample to C7 as stated: after rollback 1 from A,B,C(current),
the pointer does move to B, but the deposed current C is marked
"rollback" (not "previous") and the target B keeps its old status "ready"
(it becomes neither "rollback" nor "current"). -/
theorem C7_counterexample_metadata_statuses :
    (rollback 1 envAllOk rbState).1 = .ok () ∧
    readLink rbState CURRENT_SYMLINK = some (gcDep "3") ∧
    readLink (rollback 1 envAllOk rbState).2 CURRENT_SYMLINK = some (gcDep "2") ∧
    (lookupMeta (rollback 1 envAllOk rbState).2 (gcDep "3")).map Meta.status =
      some "rollback" ∧
    (lookupMeta (rollback 1 envAllOk rbState).2 (gcDep "2")).map Meta.status =
      some "ready" := by decide

end Hammer
